import Mathlib

/-!
Verification development for the Atmos-Encoder repository.

This file embeds (shallowly) the parts of the repository needed to settle the
frozen claims: the conditional Atmos metadata transform (`src/atmos_editor.py`),
the TrueHD stream-analysis scan, the `safe_rename` file operation, the Atmos
encoding event sequence, the `KeyboardInterrupt` handlers, and the output-path
derivations (all from `src/main.py`).

Python strings are modelled as Lean `String` with executable, structurally
recursive character-list helpers mirroring the Python primitives used by the
source (`str.split()`, `str.strip()`, `str.startswith`, `in`/containment,
`str.lower()`, `str.endswith`, and `int(...)` parsing).
-/

/-! ## Python string primitives -/

/-- Whether `pat` is a prefix of `s`, on character lists (models `str.startswith`). -/
def startsChars : List Char → List Char → Bool
  | _, [] => true
  | [], _ :: _ => false
  | c :: cs, p :: ps => c == p && startsChars cs ps

/-- Whether `pat` occurs as a contiguous sublist of `s` (models Python `pat in s`). -/
def containsChars : List Char → List Char → Bool
  | [], ps => ps.isEmpty
  | c :: cs, ps => startsChars (c :: cs) ps || containsChars cs ps

/-- Auxiliary whitespace splitter: accumulates the current token (reversed) in `acc`.
Models Python `str.split()` with no argument: runs of whitespace separate tokens,
and leading/trailing whitespace produces no empty tokens. -/
def splitWsAux : List Char → List Char → List String
  | [], acc => if acc.isEmpty then [] else [String.mk acc.reverse]
  | c :: cs, acc =>
    if c.isWhitespace then
      if acc.isEmpty then splitWsAux cs [] else String.mk acc.reverse :: splitWsAux cs []
    else
      splitWsAux cs (c :: acc)

/-- Python `line.split()`. -/
def pySplit (s : String) : List String := splitWsAux s.data []

/-- Python `s.strip()`. -/
def pyStrip (s : String) : String :=
  String.mk (((s.data.dropWhile Char.isWhitespace).reverse.dropWhile Char.isWhitespace).reverse)

/-- Python `s.startswith(pat)`. -/
def pyStartsWith (s pat : String) : Bool := startsChars s.data pat.data

/-- Python `pat in s` (substring containment). -/
def pyContains (s pat : String) : Bool := containsChars s.data pat.data

/-- Python `s.endswith(pat)`. -/
def pyEndsWith (s pat : String) : Bool := startsChars s.data.reverse pat.data.reverse

/-- Python `s.lower()` (ASCII case folding, which covers every string the source
compares after lowering). -/
def pyLower (s : String) : String := String.mk (s.data.map Char.toLower)

/-- Decimal digit run to a number; `none` unless the run is nonempty and all digits. -/
def digitsToNat (cs : List Char) : Option Nat :=
  if cs.isEmpty then none
  else if cs.all Char.isDigit then
    some (cs.foldl (fun a c => a * 10 + (c.toNat - 48)) 0)
  else none

/-- Python `int(s)` on a token: optional surrounding whitespace, optional sign,
then a nonempty run of decimal digits; `none` models the `ValueError` raise.
(Digit-group underscores and non-ASCII digits are not used by the source's inputs.) -/
def pyParseInt (s : String) : Option Int :=
  match (pyStrip s).data with
  | [] => none
  | '-' :: rest => (digitsToNat rest).map (fun n => -(n : Int))
  | '+' :: rest => (digitsToNat rest).map (fun n => (n : Int))
  | cs => (digitsToNat cs).map (fun n => (n : Int))

example : pySplit "  Dialogue Level:   -27 dB " = ["Dialogue", "Level:", "-27", "dB"] := by decide
example : pyContains " Dialogue Level: -27" "Dialogue Level" = true := by decide
example : pyParseInt "-27" = some (-27) := by decide
example : pyParseInt "dB" = none := by decide
example : pyStartsWith (pyStrip "   Presentation 4") "Presentation " = true := by decide

/-! ## Atmos metadata model and `transform_atmos_file_inplace` (src/atmos_editor.py)

The YAML document is modelled by the fields the transform reads or writes.
`Option` marks keys that may be absent (read through `.get(..., default)` /
written by item assignment); absent `presentations` and an empty list coincide
through `data.get("presentations", [])`. -/

structure AtmosChannel where
  channel : String
  id : Int
deriving DecidableEq, Repr

structure BedInstance where
  channels : List AtmosChannel
deriving DecidableEq, Repr

structure AtmosObject where
  id : Int
deriving DecidableEq, Repr

structure AtmosPresentation where
  scBedConfiguration : Option (List Int) := none
  creationTool : Option String := none
  creationToolVersion : Option String := none
  warpMode : Option String := none
  bedInstances : List BedInstance := []
  objects : List AtmosObject := []
deriving DecidableEq, Repr

structure AtmosData where
  presentations : Option (List AtmosPresentation) := none
deriving DecidableEq, Repr

/-- The 8-element reference bed configuration the transform requires. -/
def refBedConfig : List Int := [0, 1, 2, 3, 6, 7, 4, 5]

/-- The field overwrites applied to the matching presentation (atmos_editor.py
lines 29-37): bed configuration becomes `[3]`, tool name and version are set,
the warp mode is written through, the first bed instance's channels collapse to
a single LFE channel, and the objects become `{"ID": i} for i in range(10, 21)`. -/
def patchPresentation (p : AtmosPresentation) (warp_mode : String) : AtmosPresentation :=
  { p with
    scBedConfiguration := some [3]
    creationTool := some "DRX-Lab"
    creationToolVersion := some "0.4.0"
    warpMode := some warp_mode
    bedInstances :=
      match p.bedInstances with
      | [] => p.bedInstances
      | b :: bs => { b with channels := [{ channel := "LFE", id := 3 }] } :: bs
    objects := (List.range' 10 11).map (fun i => { id := (i : Int) }) }

/-- `transform_atmos_file_inplace` from `src/atmos_editor.py`: returns the changed
flag together with the resulting file contents (unchanged contents model "no
write happened"). -/
def transform_atmos_file_inplace (data : AtmosData) (warp_mode : String) :
    Bool × AtmosData :=
  match data.presentations.getD [] with
  | [] => (false, data)
  | p :: rest =>
    if p.scBedConfiguration.getD [] = refBedConfig then
      (true, { data with presentations := some (patchPresentation p warp_mode :: rest) })
    else
      (false, data)

/-! ## TrueHD stream analysis (src/main.py, lines 456-499)

The scan over `truehdd info` output lines. The source stores `str(level)` for a
successfully parsed dialogue level and the `int` 0 on the exception fallback;
the model keeps the numeric value of the stored level. -/

structure ScanState where
  currentPresentation : Option Int := none
  lastPresentationNum : Option Int := none
  lastDialogueLevel : Option Int := none
deriving DecidableEq, Repr

/-- The `"Dialogue Level" in line` branch of the scan loop (main.py 480-489).
`parts[-2]` raising `IndexError` (fewer than two tokens) and `int(...)` raising
`ValueError` both land in the `except` arm, which stores 0. -/
def dialogueCheck (disableDbfs : Bool) (st : ScanState) (line : String) : ScanState :=
  if pyContains line "Dialogue Level" && st.currentPresentation.isSome && !disableDbfs then
    let st1 := { st with lastPresentationNum := st.currentPresentation }
    let parts := pySplit line
    if parts.length < 2 then
      { st1 with lastDialogueLevel := some 0 }
    else
      match pyParseInt (parts.getD (parts.length - 2) "") with
      | some v => { st1 with lastDialogueLevel := some (if v < -31 then -31 else v) }
      | none => { st1 with lastDialogueLevel := some 0 }
  else st

/-- One iteration of the scan loop (main.py 474-489). A failed parse of the
presentation header token executes `continue`, skipping the dialogue check for
that line; a successful parse falls through to it with the updated context. -/
def scanLine (disableDbfs : Bool) (st : ScanState) (line : String) : ScanState :=
  if pyStartsWith (pyStrip line) "Presentation " then
    let toks := pySplit (pyStrip line)
    if toks.length < 2 then st
    else
      match pyParseInt (toks.getD 1 "") with
      | none => st
      | some n => dialogueCheck disableDbfs { st with currentPresentation := some n } line
  else dialogueCheck disableDbfs st line

/-- The full scan over the info output (main.py 473-492), including the final
unconditional overwrite to 0 when `--disable-dbfs` was passed. -/
def analyzeStream (disableDbfs : Bool) (lines : List String) : ScanState :=
  let st := lines.foldl (scanLine disableDbfs) {}
  if disableDbfs then { st with lastDialogueLevel := some 0 } else st

/-- `any(f.lower().endswith(".atmos") for f in atmos_or_wav_files)` (main.py 461, 498). -/
def hasAtmosFile (files : List String) : Bool :=
  files.any (fun f => pyEndsWith (pyLower f) ".atmos")

/-- The stored dialogue level of a run (main.py 461-499): the scan runs only for
a single-file input with no `.atmos` file; folder or `.atmos` inputs take the
`else` branch, which stores `"-31"` unconditionally. -/
def storedDialogueLevel (inputIsFolder : Bool) (files : List String)
    (disableDbfs : Bool) (lines : List String) : Option Int :=
  if !inputIsFolder && !(hasAtmosFile files) then
    (analyzeStream disableDbfs lines).lastDialogueLevel
  else some (-31)

/-! ## Filesystem model and `safe_rename` (src/main.py, lines 49-52)

A filesystem is a finite path-to-content map (association list with at most one
entry per path). `safe_rename` removes a pre-existing destination, then performs
`os.rename`, which raises `FileNotFoundError` (modelled as `none`) when the
source does not exist. -/

/-- Path-to-content map. -/
abbrev FS := List (String × String)

def fsLookup : FS → String → Option String
  | [], _ => none
  | (p, c) :: rest, q => if p = q then some c else fsLookup rest q

def fsRemove : FS → String → FS
  | [], _ => []
  | (p, c) :: rest, q => if p = q then fsRemove rest q else (p, c) :: fsRemove rest q

def fsSet (fs : FS) (p c : String) : FS := (p, c) :: fsRemove fs p

/-- `safe_rename(src, dst)` acting on the filesystem; `none` models an uncaught
`OSError` from `os.rename` (missing source). -/
def safe_rename (fs : FS) (src dst : String) : Option FS :=
  let fs1 := if (fsLookup fs dst).isSome then fsRemove fs dst else fs
  match fsLookup fs1 src with
  | none => none
  | some c => some (fsSet (fsRemove fs1 src) dst c)

/-! ## Subprocess exit-code handling (src/main.py)

`decodeStepOutcome` embeds the decode-step check (lines 539-542 and 551-554):
a non-zero `returncode` prints an error and calls `sys.exit(1)`.
`runDeeStepOutcome` embeds `run_dee` (lines 94-147): `process.wait()` is called
and its result discarded — no branch on the encoder's return code exists, so the
call always falls through to the caller, which proceeds with the next statement. -/

inductive StepOutcome where
  | proceed
  | fatalExit (code : Nat)
deriving DecidableEq, Repr

def decodeStepOutcome (returncode : Int) : StepOutcome :=
  if returncode ≠ 0 then StepOutcome.fatalExit 1 else StepOutcome.proceed

def runDeeStepOutcome (_returncode : Int) : StepOutcome := StepOutcome.proceed

/-- Events of the Atmos encoding section (main.py 606-653). -/
inductive PipeEv where
  | createXml51
  | encode51
  | rename51
  | createXml71
  | encode71
  | rename71
  | removeAtmosTriple
  | removeXmls
deriving DecidableEq, Repr

/-- The 5.1 encode block (main.py 629-632): `run_dee` is followed unconditionally
by `safe_rename`, whatever the encoder's exit code was. -/
def encode51Block (encoderReturncode : Int) : List PipeEv :=
  PipeEv.encode51 ::
    (match runDeeStepOutcome encoderReturncode with
     | StepOutcome.proceed => [PipeEv.rename51]
     | StepOutcome.fatalExit _ => [])

/-- `--atmos-mode` values. -/
inductive AtmosMode where
  | m51
  | m71
  | both
deriving DecidableEq, Repr

/-- The event sequence of the Atmos encoding section (main.py 617-653):
the 5.1 block runs when mode is in `["5.1", "both"]`, the 7.1 block when mode is
in `["7.1", "both"]`, and the `.atmos*`/XML cleanup runs after both blocks. -/
def atmosEncodeEvents (mode : AtmosMode) : List PipeEv :=
  (if mode ∈ [AtmosMode.m51, AtmosMode.both] then
    [PipeEv.createXml51, PipeEv.encode51, PipeEv.rename51]
   else []) ++
  (if mode ∈ [AtmosMode.m71, AtmosMode.both] then
    [PipeEv.createXml71, PipeEv.encode71, PipeEv.rename71]
   else []) ++
  [PipeEv.removeAtmosTriple, PipeEv.removeXmls]

/-- Whether the intermediate Atmos triple files are still on disk after running
the given events (they exist from decode onward; only `remove_files` with the
`.atmos*` extensions deletes them). -/
def atmosTripleLive (evs : List PipeEv) : Bool :=
  evs.foldl (fun present e => if e = PipeEv.removeAtmosTriple then false else present) true

/-! ## KeyboardInterrupt handlers (src/main.py)

Each handler is the list of statements in its `except KeyboardInterrupt` block,
plus the `finally` block of the enclosing `try` when one exists. `sys.exit(1)`
raises `SystemExit`, so statements after it in the same block are unreachable,
while a `finally` block still runs during propagation. -/

inductive CancelAct where
  | printCanceled
  | exitProcess
  | terminateChild
  | returnStmt
deriving DecidableEq, Repr

/-- The actions actually performed by a handler block `body` followed by a
`finally` block: statements up to and including the first `sys.exit(1)`, then
the `finally` statements. -/
def performedActs (body finallyActs : List CancelAct) : List CancelAct :=
  body.takeWhile (fun a => a ≠ CancelAct.exitProcess) ++
    (if CancelAct.exitProcess ∈ body then CancelAct.exitProcess :: finallyActs
     else finallyActs)

/-- `run_dee`'s interrupt handler (main.py 131-135) and the `finally` of its
enclosing `try` (main.py 143-147). -/
def runDeeCancelBody : List CancelAct :=
  [CancelAct.printCanceled, CancelAct.exitProcess, CancelAct.terminateChild,
   CancelAct.returnStmt]

def runDeeCancelFinally : List CancelAct := [CancelAct.terminateChild]

/-- `run_ffmpeg_with_progress`'s interrupt handler (main.py 264-268); its `try`
has no `finally` block. -/
def runFfmpegCancelBody : List CancelAct :=
  [CancelAct.printCanceled, CancelAct.exitProcess, CancelAct.terminateChild,
   CancelAct.returnStmt]

def runFfmpegCancelFinally : List CancelAct := []

/-- `run_adm_to_atmos`'s interrupt handler (main.py 209-212). -/
def runAdmCancelBody : List CancelAct :=
  [CancelAct.printCanceled, CancelAct.terminateChild, CancelAct.exitProcess]

/-! ## Output paths (src/main.py)

`OUTPUT_DIR` is the fixed directory `SCRIPT_DIR/ddp_encode` (lines 15-18); the
intermediate encoder artifact uses the fixed name `ddp_encode_atmos_5_1.mp4`
(line 618), while the final deliverable embeds the run's base name (line 632).
The script directory is a parameter of the model; the run's base name is passed
to every path derivation so that dependence (or independence) on it is visible. -/

def joinPath (dir file : String) : String := dir ++ "/" ++ file

def outputDirOf (scriptDir : String) : String := joinPath scriptDir "ddp_encode"

def intermediateAtmos51Path (scriptDir : String) (_baseName : String) : String :=
  joinPath (outputDirOf scriptDir) "ddp_encode_atmos_5_1.mp4"

def finalAtmos51Path (scriptDir baseName : String) : String :=
  joinPath (outputDirOf scriptDir) (baseName ++ "_atmos_5_1.mp4")

/-! ## Sample metadata files used by witnesses -/

/-- A presentation whose bed configuration is exactly the reference sequence. -/
def presMatching : AtmosPresentation :=
  { scBedConfiguration := some refBedConfig
    bedInstances := [{ channels := [{ channel := "L", id := 0 }, { channel := "LFE", id := 3 }] }]
    objects := [{ id := 10 }] }

/-- A presentation whose bed configuration differs from the reference sequence. -/
def presOther : AtmosPresentation :=
  { scBedConfiguration := some [0, 1, 2, 3] }

def dataMatching : AtmosData := { presentations := some [presMatching] }

def dataOther : AtmosData := { presentations := some [presOther] }

/-- First presentation does not match; a later one does. -/
def dataLaterMatch : AtmosData := { presentations := some [presOther, presMatching] }

/-- C1: the transform reports `changed = true` iff the first presentation's bed
configuration equals `[0, 1, 2, 3, 6, 7, 4, 5]`; when it fires, the resulting
object list has exactly 11 entries with IDs 10 to 20; otherwise the file is left
unchanged. -/
theorem transform_changed_iff_refConfig (d : AtmosData) (w : String) :
    ((transform_atmos_file_inplace d w).1 = true ↔
      ∃ p rest, d.presentations.getD [] = p :: rest ∧
        p.scBedConfiguration.getD [] = refBedConfig) ∧
    ((transform_atmos_file_inplace d w).1 = true →
      ∃ p1 rest1, (transform_atmos_file_inplace d w).2.presentations = some (p1 :: rest1) ∧
        p1.objects.length = 11 ∧
        p1.objects.map AtmosObject.id = [10, 11, 12, 13, 14, 15, 16, 17, 18, 19, 20]) ∧
    ((transform_atmos_file_inplace d w).1 = false →
      (transform_atmos_file_inplace d w).2 = d) := by
  rcases hp : d.presentations.getD [] with _ | ⟨p, rest⟩
  · have hres : transform_atmos_file_inplace d w = (false, d) := by
      simp [transform_atmos_file_inplace, hp]
    rw [hres]
    refine ⟨?_, ?_, fun _ => rfl⟩
    · simp [hp]
    · intro h
      simp at h
  · by_cases hc : p.scBedConfiguration.getD [] = refBedConfig
    · have hres : transform_atmos_file_inplace d w =
          (true, { d with presentations := some (patchPresentation p w :: rest) }) := by
        simp [transform_atmos_file_inplace, hp, hc]
      rw [hres]
      refine ⟨⟨fun _ => ⟨p, rest, rfl, hc⟩, fun _ => rfl⟩, ?_, ?_⟩
      · intro _
        refine ⟨patchPresentation p w, rest, rfl, ?_, ?_⟩
        · show ((List.range' 10 11).map
            (fun i => ({ id := (i : Int) } : AtmosObject))).length = 11
          decide
        · show ((List.range' 10 11).map
            (fun i => ({ id := (i : Int) } : AtmosObject))).map AtmosObject.id =
              [10, 11, 12, 13, 14, 15, 16, 17, 18, 19, 20]
          decide
      · intro h
        simp at h
    · have hres : transform_atmos_file_inplace d w = (false, d) := by
        simp [transform_atmos_file_inplace, hp, hc]
      rw [hres]
      refine ⟨?_, ?_, fun _ => rfl⟩
      · constructor
        · intro h
          simp at h
        · rintro ⟨q, qrest, hq, hqc⟩
          cases hq
          exact absurd hqc hc
      · intro h
        simp at h

/-- C1 witness: the theorem applied to a matching file (patch fires, 11 objects
with IDs 10-20) and to a non-matching file (byte-identical result). -/
theorem transform_changed_iff_refConfig_witness :
    (transform_atmos_file_inplace dataMatching "normal").1 = true ∧
    (∃ p1 rest1,
      (transform_atmos_file_inplace dataMatching "normal").2.presentations =
        some (p1 :: rest1) ∧
      p1.objects.length = 11 ∧
      p1.objects.map AtmosObject.id = [10, 11, 12, 13, 14, 15, 16, 17, 18, 19, 20]) ∧
    (transform_atmos_file_inplace dataOther "normal").2 = dataOther := by
  have h1 := transform_changed_iff_refConfig dataMatching "normal"
  have h2 := transform_changed_iff_refConfig dataOther "normal"
  have hfire : (transform_atmos_file_inplace dataMatching "normal").1 = true :=
    h1.1.mpr ⟨presMatching, [], rfl, rfl⟩
  exact ⟨hfire, h1.2.1 hfire, h2.2.2 (by decide)⟩

/-- C9: a file whose loaded document has no `presentations` key, or whose
presentations list is empty, yields `False` and is left unmodified. -/
theorem transform_empty_presentations_unchanged (d : AtmosData) (w : String)
    (h : d.presentations = none ∨ d.presentations = some []) :
    transform_atmos_file_inplace d w = (false, d) := by
  rcases h with h | h <;> simp [transform_atmos_file_inplace, h]

/-- C9 witness: the theorem applied to the missing-key file and the empty-list file. -/
theorem transform_empty_presentations_unchanged_witness :
    transform_atmos_file_inplace { presentations := none } "normal" =
      (false, { presentations := none }) ∧
    transform_atmos_file_inplace { presentations := some [] } "warping" =
      (false, { presentations := some [] }) :=
  ⟨transform_empty_presentations_unchanged { presentations := none } "normal" (Or.inl rfl),
   transform_empty_presentations_unchanged { presentations := some [] } "warping" (Or.inr rfl)⟩

/-- C10: the transform consults only the first presentation: whenever the first
presentation's bed configuration differs from the reference sequence the result
is `False` and the file is unmodified — whatever the later presentations hold. -/
theorem transform_checks_only_first_presentation (d : AtmosData) (w : String)
    (p : AtmosPresentation) (rest : List AtmosPresentation)
    (hp : d.presentations.getD [] = p :: rest)
    (hne : p.scBedConfiguration.getD [] ≠ refBedConfig) :
    transform_atmos_file_inplace d w = (false, d) := by
  simp [transform_atmos_file_inplace, hp, if_neg hne]

/-- C10 witness: a file whose first presentation does not match while its second
presentation matches the reference exactly; the transform still reports `False`
and leaves the file unmodified. -/
theorem transform_checks_only_first_presentation_witness :
    transform_atmos_file_inplace dataLaterMatch "normal" = (false, dataLaterMatch) :=
  transform_checks_only_first_presentation dataLaterMatch "normal" presOther
    [presMatching] rfl (by decide)

/-! ## Dialogue-level claims -/

/-- C3 (amended): for a dialogue-level line seen while a presentation context is
active (and lookup enabled), a successfully parsed second-to-last token `v` is
stored as `max v (-31)`; when the token is malformed (or the line has fewer than
two tokens) the stored level falls back to 0 — not to the -31 floor. -/
theorem scanLine_dialogue_level (st : ScanState) (line : String)
    (hdl : pyContains line "Dialogue Level" = true)
    (hpres : st.currentPresentation.isSome = true)
    (hhdr : pyStartsWith (pyStrip line) "Presentation " = false) :
    (∀ v : Int,
      pyParseInt ((pySplit line).getD ((pySplit line).length - 2) "") = some v →
      2 ≤ (pySplit line).length →
      (scanLine false st line).lastDialogueLevel = some (max v (-31))) ∧
    (((pySplit line).length < 2 ∨
      pyParseInt ((pySplit line).getD ((pySplit line).length - 2) "") = none) →
      (scanLine false st line).lastDialogueLevel = some 0) := by
  have hstep : scanLine false st line = dialogueCheck false st line := by
    simp [scanLine, hhdr]
  rw [hstep]
  constructor
  · intro v hv hlen
    simp only [dialogueCheck, hdl, hpres, Bool.not_false, Bool.and_self,
      if_true, if_neg (by omega : ¬(pySplit line).length < 2), hv]
    have hmax : (if v < -31 then (-31 : Int) else v) = max v (-31) := by
      rw [max_def]
      split_ifs <;> omega
    simp [hmax]
  · intro h
    rcases h with hlen | hparse
    · simp only [dialogueCheck, hdl, hpres, Bool.not_false, Bool.and_self,
        if_true, if_pos hlen]
    · by_cases hlen : (pySplit line).length < 2
      · simp only [dialogueCheck, hdl, hpres, Bool.not_false, Bool.and_self,
          if_true, if_pos hlen]
      · simp only [dialogueCheck, hdl, hpres, Bool.not_false, Bool.and_self,
          if_true, if_neg hlen, hparse]

/-- C3 witness: a valid out-of-range line (`-36` parses, stored level is
`max (-36) (-31)`), through the theorem at a concrete state and line. -/
theorem scanLine_dialogue_level_witness :
    (scanLine false { currentPresentation := some 2 }
      "    Dialogue Level:        -36 dB").lastDialogueLevel =
      some (max (-36) (-31)) :=
  (scanLine_dialogue_level { currentPresentation := some 2 }
      "    Dialogue Level:        -36 dB" (by decide) (by decide) (by decide)).1
    (-36) (by decide) (by decide)

/-- C3 counterexample: a dialogue-level line whose second-to-last token is
malformed stores 0, not the -31 floor the claim states. -/
theorem scanLine_malformed_stores_zero :
    (scanLine false { currentPresentation := some 1 }
      "Dialogue Level X dB").lastDialogueLevel = some 0 ∧
    (scanLine false { currentPresentation := some 1 }
      "Dialogue Level X dB").lastDialogueLevel ≠ some (-31) := by
  decide

/-- C4 (amended): `--disable-dbfs` forces the stored dialogue level to 0 only on
the single-file, non-Atmos analysis path; for a folder input (or an input set
containing a `.atmos` file) the stored level is -31 regardless of the flag. -/
theorem disable_dbfs_forces_zero (files lines : List String) :
    (hasAtmosFile files = false →
      storedDialogueLevel false files true lines = some 0) ∧
    (∀ inputIsFolder disableDbfs : Bool,
      inputIsFolder = true ∨ hasAtmosFile files = true →
      storedDialogueLevel inputIsFolder files disableDbfs lines = some (-31)) := by
  constructor
  · intro h
    simp [storedDialogueLevel, h, analyzeStream]
  · intro inputIsFolder disableDbfs h
    rcases h with h | h
    · simp [storedDialogueLevel, h]
    · simp [storedDialogueLevel, h]

/-- C4 witness: the theorem applied to a single `.thd` input (level forced to 0)
and to a folder of WAV files (level -31 despite `--disable-dbfs`). -/
theorem disable_dbfs_forces_zero_witness :
    storedDialogueLevel false ["movie.thd"] true
      ["Presentation 1", "  Dialogue Level:  -5 dB"] = some 0 ∧
    storedDialogueLevel true ["a.wav"] true
      ["Presentation 1", "  Dialogue Level:  -5 dB"] = some (-31) :=
  ⟨(disable_dbfs_forces_zero ["movie.thd"]
      ["Presentation 1", "  Dialogue Level:  -5 dB"]).1 (by decide),
   (disable_dbfs_forces_zero ["a.wav"]
      ["Presentation 1", "  Dialogue Level:  -5 dB"]).2 true true (Or.inl rfl)⟩

/-- C4 counterexample: a run on a folder of WAV files with `--disable-dbfs`
stores -31, not 0 — the claim fails for folder inputs. -/
theorem disable_dbfs_folder_not_zero :
    storedDialogueLevel true ["a.wav"] true
      ["Presentation 1", "  Dialogue Level:  -5 dB"] = some (-31) ∧
    storedDialogueLevel true ["a.wav"] true
      ["Presentation 1", "  Dialogue Level:  -5 dB"] ≠ some 0 := by
  decide

/-! ## `safe_rename` claims -/

theorem fsLookup_fsRemove_self (fs : FS) (p : String) :
    fsLookup (fsRemove fs p) p = none := by
  induction fs with
  | nil => rfl
  | cons e rest ih =>
    obtain ⟨q, c⟩ := e
    by_cases h : q = p
    · simp [fsRemove, h, ih]
    · simp [fsRemove, fsLookup, h, ih]

theorem fsLookup_fsRemove_other (fs : FS) (p q : String) (h : q ≠ p) :
    fsLookup (fsRemove fs p) q = fsLookup fs q := by
  induction fs with
  | nil => rfl
  | cons e rest ih =>
    obtain ⟨r, c⟩ := e
    by_cases hr : r = p
    · subst hr
      have hrq : ¬ r = q := fun hh => h hh.symm
      simp [fsRemove, fsLookup, hrq, ih]
    · by_cases hq : r = q
      · subst hq
        simp [fsRemove, fsLookup, hr]
      · simp [fsRemove, fsLookup, hr, hq, ih]

/-- C7 (amended): a single `safe_rename` with an existing source succeeds even
when the destination pre-exists (removing it first, last-writer-wins), leaving
the source's content at the destination and nothing at the source; a second call
with the same arguments then fails, because the first call consumed the source. -/
theorem safe_rename_moves_and_second_call_fails (fs : FS) (src dst c : String)
    (hne : src ≠ dst) (hsrc : fsLookup fs src = some c) :
    ∃ fs1, safe_rename fs src dst = some fs1 ∧
      fsLookup fs1 dst = some c ∧
      fsLookup fs1 src = none ∧
      safe_rename fs1 src dst = none := by
  have hsrc1 :
      fsLookup (if (fsLookup fs dst).isSome then fsRemove fs dst else fs) src = some c := by
    by_cases hd : (fsLookup fs dst).isSome
    · rw [if_pos hd, fsLookup_fsRemove_other fs dst src hne, hsrc]
    · rw [if_neg hd, hsrc]
  refine ⟨fsSet (fsRemove (if (fsLookup fs dst).isSome then fsRemove fs dst else fs) src)
      dst c, ?_, ?_, ?_, ?_⟩
  · simp only [safe_rename, hsrc1]
  · simp [fsSet, fsLookup]
  · have hds : ¬ dst = src := fun hh => hne hh.symm
    have hrm : fsLookup (fsRemove (fsRemove
        (if (fsLookup fs dst).isSome then fsRemove fs dst else fs) src) dst) src = none := by
      rw [fsLookup_fsRemove_other _ dst src hne]
      exact fsLookup_fsRemove_self _ src
    simp only [fsSet, fsLookup, if_neg hds, hrm]
  · have hds : ¬ dst = src := fun hh => hne hh.symm
    have hdst : fsLookup (fsSet (fsRemove
        (if (fsLookup fs dst).isSome then fsRemove fs dst else fs) src) dst c) dst =
        some c := by
      simp [fsSet, fsLookup]
    have hsrc2 : fsLookup (fsSet (fsRemove
        (if (fsLookup fs dst).isSome then fsRemove fs dst else fs) src) dst c) src =
        none := by
      have hrm : fsLookup (fsRemove (fsRemove
          (if (fsLookup fs dst).isSome then fsRemove fs dst else fs) src) dst) src = none := by
        rw [fsLookup_fsRemove_other _ dst src hne]
        exact fsLookup_fsRemove_self _ src
      simp only [fsSet, fsLookup, if_neg hds, hrm]
    simp only [safe_rename, hdst, Option.isSome_some, if_true]
    rw [fsLookup_fsRemove_other _ dst src hne, hsrc2]

/-- C7 witness: the theorem at a concrete filesystem where the destination
already holds stale content. -/
theorem safe_rename_moves_witness :
    ∃ fs1, safe_rename [("d.mp4", "old"), ("s.mp4", "new")] "s.mp4" "d.mp4" = some fs1 ∧
      fsLookup fs1 "d.mp4" = some "new" ∧
      fsLookup fs1 "s.mp4" = none ∧
      safe_rename fs1 "s.mp4" "d.mp4" = none :=
  safe_rename_moves_and_second_call_fails [("d.mp4", "old"), ("s.mp4", "new")]
    "s.mp4" "d.mp4" "new" (by decide) (by decide)

/-- C7 counterexample: calling `safe_rename` twice with the same arguments is
not idempotent — the first call moves the file, the second call removes the
destination and then fails on the missing source (`os.rename` raises). -/
theorem safe_rename_not_idempotent :
    safe_rename [("s.mp4", "A")] "s.mp4" "d.mp4" = some [("d.mp4", "A")] ∧
    safe_rename [("d.mp4", "A")] "s.mp4" "d.mp4" = none := by
  decide

/-! ## Exit-code, cleanup-ordering, cancellation and path claims -/

/-- C2 (amended): a non-zero exit code of the decode subprocess is fatal (the
run exits with status 1); the encoder subprocess run through `run_dee` never has
its exit code checked — the call falls through and the following rename stage
still executes, whatever the encoder's exit code was. -/
theorem decode_fatal_encoder_exit_unchecked :
    (∀ rc : Int, rc ≠ 0 → decodeStepOutcome rc = StepOutcome.fatalExit 1) ∧
    (∀ rc : Int, runDeeStepOutcome rc = StepOutcome.proceed ∧
      encode51Block rc = [PipeEv.encode51, PipeEv.rename51]) := by
  constructor
  · intro rc h
    simp [decodeStepOutcome, h]
  · intro rc
    exact ⟨rfl, rfl⟩

/-- C2 witness: the theorem at exit code 2 — decode fatal, encoder unchecked. -/
theorem decode_fatal_encoder_exit_unchecked_witness :
    decodeStepOutcome 2 = StepOutcome.fatalExit 1 ∧
    runDeeStepOutcome 2 = StepOutcome.proceed :=
  ⟨decode_fatal_encoder_exit_unchecked.1 2 (by decide),
   (decode_fatal_encoder_exit_unchecked.2 2).1⟩

/-- C2 counterexample: an encoder subprocess exiting with code 1 is not
surfaced as fatal — the run proceeds and the rename stage still executes,
unlike the decode subprocess, where exit code 1 stops the run. -/
theorem run_dee_nonzero_exit_not_fatal :
    runDeeStepOutcome 1 = StepOutcome.proceed ∧
    runDeeStepOutcome 1 ≠ StepOutcome.fatalExit 1 ∧
    encode51Block 1 = [PipeEv.encode51, PipeEv.rename51] ∧
    decodeStepOutcome 1 = StepOutcome.fatalExit 1 := by
  decide

/-- C5: in "both" mode the Atmos triple is still on disk immediately after the
5.1 encode (and after its rename), no removal event occurs anywhere before the
7.1 stage has completed, and the triple is gone only at the end of the section. -/
theorem both_mode_atmos_cleanup_after_71 :
    atmosEncodeEvents AtmosMode.both =
      [PipeEv.createXml51, PipeEv.encode51, PipeEv.rename51,
       PipeEv.createXml71, PipeEv.encode71, PipeEv.rename71,
       PipeEv.removeAtmosTriple, PipeEv.removeXmls] ∧
    atmosTripleLive ((atmosEncodeEvents AtmosMode.both).take 2) = true ∧
    atmosTripleLive ((atmosEncodeEvents AtmosMode.both).take 3) = true ∧
    PipeEv.removeAtmosTriple ∉ (atmosEncodeEvents AtmosMode.both).take 6 ∧
    atmosTripleLive (atmosEncodeEvents AtmosMode.both) = false := by
  decide

/-- C8: under a user interrupt, `run_ffmpeg_with_progress` prints the canceled
indication and exits with status 1, but its `process.terminate()` sits after
`sys.exit(1)` (unreachable) and the `try` has no `finally`, so the ffmpeg child
is never terminated — it is orphaned. `run_dee` (via its `finally`) and
`run_adm_to_atmos` (terminate before exit) do terminate their children. -/
theorem ffmpeg_cancel_orphans_child :
    CancelAct.printCanceled ∈ performedActs runFfmpegCancelBody runFfmpegCancelFinally ∧
    CancelAct.exitProcess ∈ performedActs runFfmpegCancelBody runFfmpegCancelFinally ∧
    CancelAct.terminateChild ∉ performedActs runFfmpegCancelBody runFfmpegCancelFinally ∧
    CancelAct.terminateChild ∈ performedActs runDeeCancelBody runDeeCancelFinally ∧
    CancelAct.terminateChild ∈ performedActs runAdmCancelBody [] := by
  decide

/-- C6 (amended): every run shares the single fixed output directory
`SCRIPT_DIR/ddp_encode` and the intermediate encoder artifact path is a fixed
name independent of the run's base name (so two runs with different base names
use the very same intermediate path); only the final deliverable embeds the base
name, and it determines the base name uniquely. -/
theorem shared_output_dir_no_run_scoping (sd b1 b2 : String) :
    intermediateAtmos51Path sd b1 = intermediateAtmos51Path sd b2 ∧
    (finalAtmos51Path sd b1 = finalAtmos51Path sd b2 → b1 = b2) := by
  constructor
  · rfl
  · intro h
    have hd := congrArg String.data h
    rw [show finalAtmos51Path sd b1 =
          (outputDirOf sd ++ "/") ++ (b1 ++ "_atmos_5_1.mp4") from rfl,
        show finalAtmos51Path sd b2 =
          (outputDirOf sd ++ "/") ++ (b2 ++ "_atmos_5_1.mp4") from rfl,
        String.data_append, String.data_append, String.data_append,
        String.data_append] at hd
    have h1 := List.append_cancel_left hd
    have h2 := List.append_cancel_right h1
    exact String.ext h2

/-- C6 witness: the theorem at two concrete runs with different base names —
same intermediate artifact path; equal final paths force equal base names. -/
theorem shared_output_dir_no_run_scoping_witness :
    intermediateAtmos51Path "SCRIPT" "movie1" = intermediateAtmos51Path "SCRIPT" "movie2" ∧
    ("movie" : String) = "movie" :=
  ⟨(shared_output_dir_no_run_scoping "SCRIPT" "movie1" "movie2").1,
   (shared_output_dir_no_run_scoping "SCRIPT" "movie" "movie").2 rfl⟩

/-- C6 counterexample: two runs on inputs with different base names place the
intermediate encoder artifact at the identical path — there is no
`runId`-scoped working directory separating them. -/
theorem intermediate_path_shared_across_base_names :
    intermediateAtmos51Path "SCRIPT" "movie1" = intermediateAtmos51Path "SCRIPT" "movie2" ∧
    ("movie1" : String) ≠ "movie2" := by
  decide
